import Mathlib

/-!
# Calorie-Tracker core: shallow embedding and verification

This development embeds the calorie-resolution core of the Calorie-Tracker
repository in Lean 4 and proves (or refutes) the specification's claims
about it.  The embedded functions mirror, line by line:

* `USDAProvider.calculateCalories`, `USDAProvider._extractCalories`,
  `USDAProvider._transformSearchResults` (backend provider),
* `FoodService._validateInput`, `FoodService._generateCacheKey`,
  `FoodService._findBestMatch`, `FoodService.getCalories`,
  `FoodService._handleError` (backend service), and
* the controller's `getBatchCalories` batch loop.

JavaScript numbers are modelled as `ℚ` (the code's numeric semantics is
real arithmetic; `Math.round x` is `⌊x + 1/2⌋`, which is Mathlib's
`round` on `ℚ`).  Absent (`undefined`/`null`) values are `Option`;
JavaScript truthiness of a number is "present and nonzero".  The mutable
`node-cache` instance is an explicit association list threaded through
`getCalories`, which also reports how many provider calls and cache
writes it performed.
-/

namespace CalorieTracker

set_option maxRecDepth 8192

/-- JavaScript `s.toLowerCase()` (ASCII case mapping suffices here). -/
def jsToLower (s : String) : String :=
  ⟨s.toList.map Char.toLower⟩

/-- JavaScript `s.trim()`: strip leading and trailing whitespace. -/
def jsTrim (s : String) : String :=
  ⟨((s.toList.dropWhile Char.isWhitespace).reverse.dropWhile
      Char.isWhitespace).reverse⟩

/-- JavaScript `s.length` (code points; all inputs of interest are ASCII). -/
def jsLength (s : String) : Nat := s.toList.length

/-- JavaScript truthiness of a possibly-absent number: `undefined`,
`null` and `0` are falsy, every other number is truthy. -/
def jsTruthyNum : Option ℚ → Bool
  | none => false
  | some v => v != 0

/-- JavaScript `a || d` for a possibly-absent number `a` and a number
default `d`: yields `a` when `a` is truthy, otherwise `d`. -/
def jsNumOr (a : Option ℚ) (d : ℚ) : ℚ :=
  match a with
  | none => d
  | some v => if v = 0 then d else v

/-- `Math.round` on the model numbers: round half toward `+∞`,
`⌊x + 1/2⌋`, returned as a model number. -/
def mathRound (x : ℚ) : ℚ := ((round x : ℤ) : ℚ)

/-- `listStartsWith p l` : the character list `p` is a prefix of `l`. -/
def listStartsWith : List Char → List Char → Bool
  | [], _ => true
  | _ :: _, [] => false
  | p :: ps, c :: cs => p == c && listStartsWith ps cs

/-- `listHasSub p l` : the character list `p` occurs contiguously in `l`. -/
def listHasSub (p : List Char) : List Char → Bool
  | [] => p.isEmpty
  | c :: rest => listStartsWith p (c :: rest) || listHasSub p rest

/-- JavaScript `name.toLowerCase().includes(pat)` (for a lower-case
pattern `pat`). -/
def lowerIncludes (name : String) (pat : String) : Bool :=
  listHasSub pat.toList (jsToLower name).toList

/-- One entry of a processed nutrient map: `{value, unit}` as produced by
`USDAProvider._extractNutrients`.  The `value` can be absent. -/
structure NutrientVal where
  value : Option ℚ
  unit : Option String
  amount : Option ℚ
deriving DecidableEq, Repr

/-- Equality on `Except` values is decidable when it is on both sides. -/
instance {α β : Type} [DecidableEq α] [DecidableEq β] : DecidableEq (Except α β) :=
  fun x y =>
    match x, y with
    | .error a, .error b =>
      if h : a = b then .isTrue (by rw [h])
      else .isFalse (by intro he; cases he; exact h rfl)
    | .ok a, .ok b =>
      if h : a = b then .isTrue (by rw [h])
      else .isFalse (by intro he; cases he; exact h rfl)
    | .error _, .ok _ => .isFalse (by intro he; cases he)
    | .ok _, .error _ => .isFalse (by intro he; cases he)

/-- A food candidate as consumed by `FoodService` (the shape produced by
`USDAProvider._transformSearchResults` and by the test mocks):
`description`, a possibly-null `calories` number, a possibly-absent
processed nutrient map (keys lower-cased nutrient names), `ingredients`,
and the provider relevance `score`. -/
structure FoodCandidate where
  id : String
  description : String
  calories : Option ℚ
  nutrients : Option (List (String × NutrientVal))
  ingredients : List String
  score : Option ℚ
deriving DecidableEq, Repr

/-- `item.nutrients.energy` : the `energy` entry of the candidate's
nutrient map, when the map exists and has the key. -/
def FoodCandidate.energyEntry (c : FoodCandidate) : Option NutrientVal :=
  match c.nutrients with
  | none => none
  | some m => m.lookup "energy"

/-- The `CalorieResult` built by `USDAProvider.calculateCalories` and
annotated by `FoodService.getCalories` (`searchResults`, `matchScore`,
`timestamp` are attached only by the service). -/
structure CalorieResult where
  dish_name : String
  servings : ℚ
  calories_per_serving : ℚ
  total_calories : ℚ
  source : String
  ingredients : List String
  nutrients : List (String × NutrientVal)
  searchResults : Option Nat
  matchScore : Option ℚ
  timestamp : Option String
deriving DecidableEq, Repr

/-- `USDAProvider.getProviderInfo().name`. -/
def providerName : String := "USDA FoodData Central"

/-- `USDAProvider.calculateCalories(foodItem, servings)`: throws when the
item is absent or its `calories` field is falsy, or when `servings` is
falsy or `≤ 0`; otherwise returns the base `CalorieResult` with
`total_calories = Math.round(caloriesPerServing * servings)`. -/
def calculateCalories (foodItem : Option FoodCandidate) (servings : ℚ) :
    Except String CalorieResult :=
  match foodItem with
  | none => .error "Invalid food item or missing calorie data"
  | some it =>
    if ¬ jsTruthyNum it.calories then
      .error "Invalid food item or missing calorie data"
    else if servings ≤ 0 then
      .error "Servings must be a positive number"
    else
      .ok { dish_name := it.description
            servings := servings
            calories_per_serving := jsNumOr it.calories 0
            total_calories := mathRound (jsNumOr it.calories 0 * servings)
            source := providerName
            ingredients := it.ingredients
            nutrients := it.nutrients.getD []
            searchResults := none
            matchScore := none
            timestamp := none }

/-- `FoodService._validateInput(dishName, servings)`: rejects an empty
(after trimming) dish name, a non-positive `servings`, `servings > 50`,
and a raw (untrimmed) dish name longer than 200 characters, in that
order, each with its own message. -/
def validateInput (dishName : String) (servings : ℚ) : Except String Unit :=
  if dishName = "" ∨ jsLength (jsTrim dishName) = 0 then
    .error "Dish name is required and must be a non-empty string"
  else if servings ≤ 0 then
    .error "Servings must be a positive number"
  else if 50 < servings then
    .error "Maximum 50 servings allowed"
  else if 200 < jsLength dishName then
    .error "Dish name too long (maximum 200 characters)"
  else
    .ok ()

/-- `FoodService._generateCacheKey(dishName, servings)` :
`` `calories_${dishName.toLowerCase().trim()}_${servings}` ``. -/
def generateCacheKey (dishName : String) (servings : ℚ) : String :=
  "calories_" ++ jsTrim (jsToLower dishName) ++ "_" ++ toString servings

/-- `item.calories && item.calories > 0` (JS): the calorie field is a
truthy number that is positive. -/
def calPositive (c : Option ℚ) : Bool :=
  match c with
  | none => false
  | some v => v != 0 && decide (0 < v)

/-- `item.nutrients && item.nutrients.energy && item.nutrients.energy.value > 0`. -/
def energyValuePos (c : FoodCandidate) : Bool :=
  match c.energyEntry with
  | none => false
  | some e =>
    match e.value with
    | none => false
    | some v => decide (0 < v)

/-- `item.nutrients && item.nutrients.energy` (the `energy` entry object
is truthy whenever present). -/
def hasEnergyEntry (c : FoodCandidate) : Bool :=
  c.energyEntry.isSome

/-- The calorie number derived from a candidate's `energy` nutrient
entry, `energy.value || 0` (also used where the guard already ensures
`energy.value > 0`, in which case it is just `energy.value`). -/
def energyDerivedCalories (c : FoodCandidate) : ℚ :=
  match c.energyEntry with
  | none => 0
  | some e => jsNumOr e.value 0

/-- Attach to a candidate the rounded calorie value derived from its
`energy` nutrient entry (`item.calories = Math.round(...)`). -/
def attachEnergyCalories (c : FoodCandidate) : FoodCandidate :=
  { c with calories := some (mathRound (energyDerivedCalories c)) }

/-- `FoodService._findBestMatch(dishName, searchResults)`, value view
(the candidate the call returns, with any calorie value the code
attaches to it): (a) the first exact (case-insensitive) description
match, if it exists and its `calories` is truthy; else (b) the first
candidate with `calories > 0`; else (c) the first candidate with an
`energy` nutrient of positive value, with `Math.round(energy.value)`
attached as its calories; else (d) the first candidate, with
`Math.round(energy.value || 0)` attached when it has an `energy`
nutrient entry. -/
def findBestMatch (dishName : String) (rs : List FoodCandidate) :
    Option FoodCandidate :=
  match rs with
  | [] => none
  | first :: _ =>
    let exact? := rs.find? (fun i => jsToLower i.description == jsToLower dishName)
    let rest : Option FoodCandidate :=
      match rs.find? (fun i => calPositive i.calories) with
      | some w => some w
      | none =>
        match rs.find? energyValuePos with
        | some w => some (attachEnergyCalories w)
        | none =>
          if hasEnergyEntry first then some (attachEnergyCalories first)
          else some first
    match exact? with
    | some em => if jsTruthyNum em.calories then some em else rest
    | none => rest

/-- Replace the first list element satisfying `p` by its image under `f`. -/
def updateFirst (p : FoodCandidate → Bool) (f : FoodCandidate → FoodCandidate) :
    List FoodCandidate → List FoodCandidate
  | [] => []
  | x :: xs => if p x then f x :: xs else x :: updateFirst p f xs

/-- `FoodService._findBestMatch`, state view: the selected candidate
together with the candidate array as it stands after the call.  The
JavaScript function mutates the array's elements in place in its last
two fallback branches (`withEnergyNutrient.calories = ...` and
`firstResult.calories = ...`). -/
def findBestMatchM (dishName : String) (rs : List FoodCandidate) :
    Option FoodCandidate × List FoodCandidate :=
  match rs with
  | [] => (none, rs)
  | first :: tail =>
    let exact? := rs.find? (fun i => jsToLower i.description == jsToLower dishName)
    let rest : Option FoodCandidate × List FoodCandidate :=
      match rs.find? (fun i => calPositive i.calories) with
      | some w => (some w, rs)
      | none =>
        match rs.find? energyValuePos with
        | some w =>
          (some (attachEnergyCalories w),
           updateFirst energyValuePos attachEnergyCalories rs)
        | none =>
          if hasEnergyEntry first then
            (some (attachEnergyCalories first), attachEnergyCalories first :: tail)
          else (some first, rs)
    match exact? with
    | some em => if jsTruthyNum em.calories then (some em, rs) else rest
    | none => rest

/-- A nutrient reference object nested inside a raw USDA food-nutrient
entry (`n.nutrient`). -/
structure NutrientRef where
  id : Option ℚ
  name : Option String
  unitName : Option String
deriving DecidableEq, Repr

/-- One raw entry of `food.foodNutrients` as the USDA API returns it:
either flat (`nutrientId`, `nutrientName`, `unitName`, `value`) or
nested (`nutrient: {id, name, unitName}`, `amount`). -/
structure FoodNutrient where
  nutrientId : Option ℚ
  nutrient : Option NutrientRef
  nutrientName : Option String
  value : Option ℚ
  amount : Option ℚ
  unitName : Option String
deriving DecidableEq, Repr

/-- The `nutrients` argument of `USDAProvider._extractCalories`: absent,
an array of raw entries, or an already-processed nutrient map. -/
inductive NutrientsField where
  | absent : NutrientsField
  | arr : List FoodNutrient → NutrientsField
  | obj : List (String × NutrientVal) → NutrientsField
deriving DecidableEq, Repr

/-- The energy-entry test of `USDAProvider._extractCalories` on a raw
array entry: `n.nutrientId === 208`, or `n.nutrient.id === 208`, or
`n.nutrient.name` contains `"energy"` case-insensitively.  The flat
`n.nutrientName` field is NOT consulted here. -/
def isEnergyNutrient (n : FoodNutrient) : Bool :=
  n.nutrientId == some 208 ||
  (match n.nutrient with
   | some r =>
     r.id == some 208 ||
     (match r.name with
      | some nm => lowerIncludes nm "energy"
      | none => false)
   | none => false)

/-- `USDAProvider._extractCalories(nutrients)`.  For an array: find the
first entry passing `isEnergyNutrient` and return
`Math.round(value || amount || 0)`, else `null` (an array has no string
keys, so the object-format branch that follows in the code can never
fire for it).  For a processed map: first key among
`energy`/`Energy`/`ENERGY` whose entry has a truthy value, rounded; else
the `energy` entry's `value || amount || 0`, rounded; else `null`. -/
def extractCalories : NutrientsField → Option ℚ
  | .absent => none
  | .arr l =>
    match l.find? isEnergyNutrient with
    | some e => some (mathRound (jsNumOr e.value (jsNumOr e.amount 0)))
    | none => none
  | .obj m =>
    match ["energy", "Energy", "ENERGY"].findSome? (fun k =>
      match m.lookup k with
      | some e =>
        if jsTruthyNum e.value then some (mathRound (jsNumOr e.value 0)) else none
      | none => none) with
    | some r => some r
    | none =>
      match m.lookup "energy" with
      | some e => some (mathRound (jsNumOr e.value (jsNumOr e.amount 0)))
      | none => none

/-- Insertion with JavaScript object-assignment semantics: overwrite the
entry when the key already exists, else append. -/
def mapAssign (m : List (String × NutrientVal)) (k : String) (v : NutrientVal) :
    List (String × NutrientVal) :=
  if (m.lookup k).isSome then
    m.map (fun kv => if kv.1 == k then (k, v) else kv)
  else m ++ [(k, v)]

/-- `USDAProvider._extractNutrients(nutrients)`: `{}` unless the input is
an array; for each entry with a name (`n.nutrient.name` when nested,
else `n.nutrientName`), assign `{value: n.value || n.amount || 0, unit}`
under the lower-cased name. -/
def extractNutrients : NutrientsField → List (String × NutrientVal)
  | .arr l =>
    l.foldl (fun acc n =>
      let nm? := match n.nutrient with
        | some r => r.name
        | none => n.nutrientName
      match nm? with
      | some nm =>
        let u := match n.nutrient with
          | some r => r.unitName
          | none => n.unitName
        mapAssign acc (jsToLower nm) ⟨some (jsNumOr n.value (jsNumOr n.amount 0)), u, none⟩
      | none => acc) []
  | _ => []

/-- A raw food record from the USDA search response.  The `calories`
field stands for an explicit calorie field carried by the raw record;
the transform reads only `fdcId`, `description`, `foodNutrients`,
`ingredients` and `score`, never `calories`. -/
structure RawFood where
  fdcId : String
  description : String
  calories : Option ℚ
  foodNutrients : NutrientsField
  ingredients : List String
  score : Option ℚ
deriving DecidableEq, Repr

/-- One mapped record of `USDAProvider._transformSearchResults`:
`calories` is extracted from `foodNutrients` alone, and `nutrients` is
the processed map (always an object, possibly empty). -/
def transformFood (food : RawFood) : FoodCandidate :=
  { id := food.fdcId
    description := food.description
    calories := extractCalories food.foodNutrients
    nutrients := some (extractNutrients food.foodNutrients)
    ingredients := food.ingredients
    score := food.score }

/-- `USDAProvider._transformSearchResults` over the `foods` array. -/
def transformSearchResults (foods : List RawFood) : List FoodCandidate :=
  foods.map transformFood

/-- `FoodService._handleError`: map known internal error messages to
user-facing ones, pass every other message through. -/
def handleError (msg : String) : String :=
  if msg = "Dish not found" then
    "Sorry, we could not find that dish in our database"
  else if msg = "Invalid servings" then
    "Please enter a valid number of servings (greater than 0)"
  else if msg = "USDA API rate limit exceeded" then
    "Service temporarily busy, please try again in a few minutes"
  else if msg = "USDA API service unavailable" then
    "Food database service is temporarily unavailable"
  else if msg = "Invalid USDA API key" then
    "Food database service configuration error"
  else msg

/-- The observable effect of one `FoodService.getCalories` call: its
outcome, the cache afterwards, and how many provider search calls and
cache writes it performed. -/
structure ResolveOut where
  outcome : Except String CalorieResult
  cache : List (String × CalorieResult)
  providerCalls : Nat
  cacheWrites : Nat
deriving DecidableEq, Repr

/-- `FoodService.getCalories(dishName, servings)` on an explicit cache
state.  `ts` is the wall-clock timestamp string taken at annotation
time, and `providerResp` is the candidate list a successful
`provider.searchFood(dishName, {pageSize: 10})` call returns on this
input.  Mirrors the code path: validate, cache lookup, provider search
on miss, best-match selection, the `!bestMatch || !bestMatch.calories`
acceptance check, `calculateCalories`, annotation, cache write. -/
def getCalories (ts : String) (providerResp : List FoodCandidate)
    (cache : List (String × CalorieResult)) (dishName : String) (servings : ℚ) :
    ResolveOut :=
  match validateInput dishName servings with
  | .error e => ⟨.error (handleError e), cache, 0, 0⟩
  | .ok _ =>
    let key := generateCacheKey dishName servings
    match cache.lookup key with
    | some r => ⟨.ok r, cache, 0, 0⟩
    | none =>
      if providerResp.length = 0 then
        ⟨.error (handleError "Dish not found"), cache, 1, 0⟩
      else
        match findBestMatch dishName providerResp with
        | none =>
          ⟨.error (handleError "Dish not found or calorie information unavailable"),
           cache, 1, 0⟩
        | some bm =>
          if ¬ jsTruthyNum bm.calories then
            ⟨.error (handleError "Dish not found or calorie information unavailable"),
             cache, 1, 0⟩
          else
            match calculateCalories (some bm) servings with
            | .error e => ⟨.error (handleError e), cache, 1, 0⟩
            | .ok r0 =>
              let r := { r0 with
                searchResults := some providerResp.length
                matchScore := bm.score
                timestamp := some ts }
              ⟨.ok r, (key, r) :: cache, 1, 1⟩

/-- JavaScript truthiness of a possibly-absent string: `undefined` and
the empty string are falsy. -/
def jsTruthyStr : Option String → Bool
  | none => false
  | some s => s != ""

/-- One item of the `dishes` array posted to the batch endpoint. -/
structure BatchItem where
  dish_name : Option String
  servings : Option ℚ
deriving DecidableEq, Repr

/-- The accumulated outcome of the batch loop: successful results,
per-item error records `{dish, error}`, and the final cache state. -/
structure BatchOut where
  results : List CalorieResult
  errors : List (BatchItem × String)
  cache : List (String × CalorieResult)
deriving DecidableEq, Repr

/-- The `for (const dish of dishes)` loop of `getBatchCalories`: each
item either fails the `!dish.dish_name || !dish.servings` guard (error
record), or is resolved through `FoodService.getCalories` with the cache
threaded, its outcome pushed to `results` or to `errors`. -/
def batchLoop (ts : String) (provider : String → List FoodCandidate) :
    List BatchItem → List (String × CalorieResult) → BatchOut
  | [], cache => ⟨[], [], cache⟩
  | dish :: rest, cache =>
    if ¬ (jsTruthyStr dish.dish_name && jsTruthyNum dish.servings) then
      let out := batchLoop ts provider rest cache
      ⟨out.results, (dish, "dish_name and servings are required") :: out.errors,
       out.cache⟩
    else
      let name := dish.dish_name.getD ""
      let ro := getCalories ts (provider name) cache name (dish.servings.getD 0)
      let out := batchLoop ts provider rest ro.cache
      match ro.outcome with
      | .ok r => ⟨r :: out.results, out.errors, out.cache⟩
      | .error e => ⟨out.results, (dish, e) :: out.errors, out.cache⟩

/-- The controller `getBatchCalories`: reject an empty or over-long
(`> 10`) `dishes` array with a validation error, otherwise run the
per-item loop. -/
def getBatchCalories (ts : String) (provider : String → List FoodCandidate)
    (cache : List (String × CalorieResult)) (dishes : List BatchItem) :
    Except String BatchOut :=
  if dishes.length = 0 then
    .error "Dishes array is required and must not be empty"
  else if 10 < dishes.length then
    .error "Maximum 10 dishes allowed per batch request"
  else
    .ok (batchLoop ts provider dishes cache)

/-! ## Shared concrete inputs for witnesses and counterexamples -/

/-- A candidate with only an identifier, a description and a calorie
field, as the unit-test mocks build them. -/
def mkCand (i d : String) (cal : Option ℚ) : FoodCandidate :=
  { id := i, description := d, calories := cal, nutrients := none,
    ingredients := [], score := none }

/-- A macaroni-and-cheese candidate with 350 calories. -/
def candMac : FoodCandidate := mkCand "w1" "Macaroni and cheese" (some 350)

/-- A pizza candidate with a resolved calorie value of 100 and a
provider score. -/
def candPizza : FoodCandidate :=
  { id := "w2", description := "Pizza", calories := some 100, nutrients := none,
    ingredients := [], score := some 95 }

/-- A pizza candidate whose calorie value resolved to `0`. -/
def candZero : FoodCandidate := mkCand "w3" "pizza" (some 0)

/-! ## C1 -/

/-- C1: for every food candidate whose calorie value resolved to some
nonzero `c` and every valid servings count `s` (`0 < s ≤ 50`),
`calculateCalories` succeeds with `caloriesPerServing = c` and
`totalCalories = round (c * s)`. -/
theorem calculateCalories_valid_servings (item : FoodCandidate) (c s : ℚ)
    (hc : item.calories = some c) (hc0 : c ≠ 0) (hs : 0 < s) (_hs50 : s ≤ 50) :
    ∃ r, calculateCalories (some item) s = Except.ok r ∧
      r.calories_per_serving = c ∧
      r.total_calories = ((round (c * s) : ℤ) : ℚ) := by
  have h1 : jsTruthyNum item.calories = true := by
    simp [jsTruthyNum, hc, hc0]
  have h2 : ¬ (s ≤ 0) := not_le.mpr hs
  have h3 : jsNumOr item.calories 0 = c := by
    simp [jsNumOr, hc, hc0]
  refine ⟨{ dish_name := item.description
            servings := s
            calories_per_serving := jsNumOr item.calories 0
            total_calories := mathRound (jsNumOr item.calories 0 * s)
            source := providerName
            ingredients := item.ingredients
            nutrients := item.nutrients.getD []
            searchResults := none
            matchScore := none
            timestamp := none }, ?_, h3, ?_⟩
  · simp only [calculateCalories, h1, not_true_eq_false, if_false, if_neg h2]
  · show mathRound (jsNumOr item.calories 0 * s) = _
    rw [h3, mathRound]

/-- Witness for C1 at the spec's own scenario: 350 calories, 2 servings. -/
theorem calculateCalories_valid_servings_witness :
    candMac.calories = some 350 ∧ (350 : ℚ) ≠ 0 ∧ (0 : ℚ) < 2 ∧ (2 : ℚ) ≤ 50 ∧
    ∃ r, calculateCalories (some candMac) 2 = Except.ok r ∧
      r.calories_per_serving = 350 ∧
      r.total_calories = ((round ((350 : ℚ) * 2) : ℤ) : ℚ) :=
  ⟨rfl, by norm_num, by norm_num, by norm_num,
   calculateCalories_valid_servings candMac 350 2 rfl (by norm_num) (by norm_num)
     (by norm_num)⟩

/-! ## C10 -/

/-- C10: a calorie value of exactly `0` is treated like a missing one:
`calculateCalories` rejects it with the same error as a `null` calorie
field, and on the resolver path a best match with `calories = 0` makes
`getCalories` fail with the not-found error instead of returning a
zero-calorie result. -/
theorem zero_calories_treated_as_missing :
    (∀ (item : FoodCandidate) (s : ℚ), item.calories = some 0 →
      calculateCalories (some item) s =
        Except.error "Invalid food item or missing calorie data" ∧
      calculateCalories (some item) s =
        calculateCalories (some { item with calories := none }) s) ∧
    (∀ ts resp cache d (s : ℚ) bm,
      validateInput d s = Except.ok () →
      cache.lookup (generateCacheKey d s) = none →
      findBestMatch d resp = some bm →
      bm.calories = some 0 →
      (getCalories ts resp cache d s).outcome =
        Except.error "Dish not found or calorie information unavailable") := by
  constructor
  · intro item s hc
    have h1 : jsTruthyNum item.calories = false := by
      simp [jsTruthyNum, hc]
    constructor
    · simp [calculateCalories, hc, jsTruthyNum]
    · simp [calculateCalories, hc, jsTruthyNum]
  · intro ts resp cache d s bm hval hmiss hbm hzero
    have hne : ¬ (resp.length = 0) := by
      intro h0
      rw [List.length_eq_zero] at h0
      subst h0
      simp [findBestMatch] at hbm
    have htr : jsTruthyNum bm.calories = false := by
      simp [jsTruthyNum, hzero]
    simp only [getCalories, hval, hmiss, if_neg hne, hbm, htr, not_false_eq_true,
      if_true]
    rfl

/-- Witness for C10: a `pizza` candidate carrying `calories = 0` is
rejected by both the calculator and the resolver. -/
theorem zero_calories_treated_as_missing_witness :
    (calculateCalories (some candZero) 1 =
      Except.error "Invalid food item or missing calorie data") ∧
    ((getCalories "t" [candZero] [] "pizza" 1).outcome =
      Except.error "Dish not found or calorie information unavailable") :=
  ⟨(zero_calories_treated_as_missing.1 candZero 1 rfl).1,
   zero_calories_treated_as_missing.2 "t" [candZero] [] "pizza" 1 candZero
     (by decide) rfl (by decide) rfl⟩

/-! ## C4 -/

/-- A 201-character dish name whose trimmed form is the single
character `a`: raw length `201 > 200`, trimmed length `1 ≤ 200`. -/
def longPadName : String := ⟨'a' :: List.replicate 200 ' '⟩

/-- Counterexample to C4 as stated: the length limit is checked on the
raw name, not the trimmed one.  `longPadName` is non-empty and at most
200 characters after trimming, and the servings `1` is a positive number
at most 50 — by the claim, `validateInput` must accept — yet the code
rejects it with the too-long `ValidationError`. -/
theorem validateInput_trimmed_length_cex :
    validateInput longPadName 1 =
      Except.error "Dish name too long (maximum 200 characters)" ∧
    jsLength (jsTrim longPadName) ≠ 0 ∧
    jsLength (jsTrim longPadName) ≤ 200 ∧
    (0 : ℚ) < 1 ∧ (1 : ℚ) ≤ 50 := by
  constructor
  · decide
  · exact ⟨by decide, by decide, by norm_num, by norm_num⟩

/-- C4 amended: `validateInput` fails exactly when the trimmed dish name
is empty, or `servings ≤ 0`, or `servings > 50`, or the RAW (untrimmed)
dish name is longer than 200 characters; each failure carries the
human-readable reason of a violated constraint. -/
theorem validateInput_error_iff (d : String) (s : ℚ) :
    ((∃ m, validateInput d s = Except.error m) ↔
      (jsLength (jsTrim d) = 0 ∨ s ≤ 0 ∨ 50 < s ∨ 200 < jsLength d)) ∧
    (∀ m, validateInput d s = Except.error m →
      (m = "Dish name is required and must be a non-empty string" ∧
        jsLength (jsTrim d) = 0) ∨
      (m = "Servings must be a positive number" ∧ s ≤ 0) ∨
      (m = "Maximum 50 servings allowed" ∧ 50 < s) ∨
      (m = "Dish name too long (maximum 200 characters)" ∧ 200 < jsLength d)) := by
  have hemp : d = "" → jsLength (jsTrim d) = 0 := by
    intro h; subst h; decide
  by_cases h1 : d = "" ∨ jsLength (jsTrim d) = 0
  · have h1' : jsLength (jsTrim d) = 0 := by
      rcases h1 with h | h
      · exact hemp h
      · exact h
    constructor
    · simp only [validateInput, if_pos h1]
      exact ⟨fun _ => Or.inl h1', fun _ => ⟨_, rfl⟩⟩
    · intro m hm
      simp only [validateInput, if_pos h1] at hm
      exact Or.inl ⟨(Except.error.injEq _ _).mp hm.symm, h1'⟩
  · by_cases h2 : s ≤ 0
    · constructor
      · simp only [validateInput, if_neg h1, if_pos h2]
        exact ⟨fun _ => Or.inr (Or.inl h2), fun _ => ⟨_, rfl⟩⟩
      · intro m hm
        simp only [validateInput, if_neg h1, if_pos h2] at hm
        exact Or.inr (Or.inl ⟨(Except.error.injEq _ _).mp hm.symm, h2⟩)
    · by_cases h3 : 50 < s
      · constructor
        · simp only [validateInput, if_neg h1, if_neg h2, if_pos h3]
          exact ⟨fun _ => Or.inr (Or.inr (Or.inl h3)), fun _ => ⟨_, rfl⟩⟩
        · intro m hm
          simp only [validateInput, if_neg h1, if_neg h2, if_pos h3] at hm
          exact Or.inr (Or.inr (Or.inl ⟨(Except.error.injEq _ _).mp hm.symm, h3⟩))
      · by_cases h4 : 200 < jsLength d
        · constructor
          · simp only [validateInput, if_neg h1, if_neg h2, if_neg h3, if_pos h4]
            exact ⟨fun _ => Or.inr (Or.inr (Or.inr h4)), fun _ => ⟨_, rfl⟩⟩
          · intro m hm
            simp only [validateInput, if_neg h1, if_neg h2, if_neg h3,
              if_pos h4] at hm
            exact Or.inr (Or.inr (Or.inr
              ⟨(Except.error.injEq _ _).mp hm.symm, h4⟩))
        · constructor
          · simp only [validateInput, if_neg h1, if_neg h2, if_neg h3, if_neg h4]
            constructor
            · rintro ⟨m, hm⟩
              cases hm
            · rintro (h | h | h | h)
              · exact absurd (Or.inr h) h1
              · exact absurd h h2
              · exact absurd h h3
              · exact absurd h h4
          · intro m hm
            simp only [validateInput, if_neg h1, if_neg h2, if_neg h3,
              if_neg h4] at hm
            cases hm

/-- Witness for the amended C4: `servings = 51` is rejected, and the
rejection is the max-servings reason. -/
theorem validateInput_error_iff_witness :
    (∃ m, validateInput "pasta" 51 = Except.error m) ∧
    ((50 : ℚ) < 51) :=
  ⟨(validateInput_error_iff "pasta" 51).1.mpr
    (Or.inr (Or.inr (Or.inl (by norm_num)))), by norm_num⟩

/-! ## C2 -/

/-- The predicate of rule 2 stated the claim's way (`calorie value > 0`)
agrees with the code's `item.calories && item.calories > 0`. -/
theorem calPositive_eq_pos (c : Option ℚ) :
    calPositive c = (match c with
      | some v => decide (0 < v)
      | none => false) := by
  cases c with
  | none => rfl
  | some v =>
    by_cases h : 0 < v
    · simp [calPositive, h, ne_of_gt h]
    · simp [calPositive, h]

/-- The §4.2 selection precedence written rule by rule, as the amended
claim states it: rule 1 inspects only the FIRST description match and
yields it exactly when its calorie value is truthy; rule 2 takes the
first candidate with calorie value `> 0`; rule 3 the first candidate
with a positive-valued `energy` nutrient entry, with the derived calorie
value attached; rule 4 the first candidate, with a derived (possibly
zero) calorie value attached whenever it has an `energy` entry. -/
def findBestMatchSpec (dishName : String) (rs : List FoodCandidate) :
    Option FoodCandidate :=
  ((rs.find? (fun i => jsToLower i.description == jsToLower dishName)).bind
      (fun em => if jsTruthyNum em.calories then some em else none)) <|>
  (rs.find? (fun i => match i.calories with
    | some v => decide (0 < v)
    | none => false)) <|>
  ((rs.find? energyValuePos).map attachEnergyCalories) <|>
  (rs.head?.map (fun f => if hasEnergyEntry f then attachEnergyCalories f else f))

/-- Counterexample to C2 as stated: rule 1 is not "a candidate whose
description equals the query and that has a resolved calorie value".
In this list the third candidate matches the query `pizza` exactly and
has calories `100`, yet the code selects the second candidate, whose
description does not match, because the FIRST description match (the
first candidate) has no calorie value and only that one is ever
considered by rule 1. -/
theorem findBestMatch_rule1_cex :
    findBestMatch "pizza"
        [mkCand "1" "pizza" none, mkCand "2" "other" (some 50),
         mkCand "3" "pizza" (some 100)] =
      some (mkCand "2" "other" (some 50)) ∧
    mkCand "3" "pizza" (some 100) ∈
      [mkCand "1" "pizza" none, mkCand "2" "other" (some 50),
       mkCand "3" "pizza" (some 100)] ∧
    jsToLower (mkCand "3" "pizza" (some 100)).description = jsToLower "pizza" ∧
    jsTruthyNum (mkCand "3" "pizza" (some 100)).calories = true ∧
    jsToLower (mkCand "2" "other" (some 50)).description ≠ jsToLower "pizza" := by
  refine ⟨rfl, by decide, rfl, by decide, by decide⟩

/-- C2 amended: `_findBestMatch` selects exactly one candidate by the
four-rule precedence in which rule 1 considers only the first
description match (yielding it only if its calorie value is truthy), and
the remaining rules are as the claim states them. -/
theorem findBestMatch_eq_spec (d : String) (rs : List FoodCandidate) :
    findBestMatch d rs = findBestMatchSpec d rs := by
  have hp : (fun i : FoodCandidate => calPositive i.calories) =
      (fun i : FoodCandidate => match i.calories with
        | some v => decide (0 < v)
        | none => false) :=
    funext fun i => calPositive_eq_pos i.calories
  cases rs with
  | nil => rfl
  | cons f t =>
    simp only [findBestMatch, findBestMatchSpec, List.head?, ← hp]
    cases h1 : List.find? (fun i => jsToLower i.description == jsToLower d)
        (f :: t) with
    | some em =>
      by_cases hc : jsTruthyNum em.calories
      · simp [hc]
      · simp only [hc, Bool.false_eq_true, if_false]
        cases h2 : List.find? (fun i => calPositive i.calories) (f :: t) with
        | some w => simp [hc]
        | none =>
          cases h3 : List.find? energyValuePos (f :: t) with
          | some w => simp [hc]
          | none => by_cases h4 : hasEnergyEntry f <;> simp [hc, h4]
    | none =>
      cases h2 : List.find? (fun i => calPositive i.calories) (f :: t) with
      | some w => simp
      | none =>
        cases h3 : List.find? energyValuePos (f :: t) with
        | some w => simp
        | none => by_cases h4 : hasEnergyEntry f <;> simp [h4]

/-- Witness for the amended C2 on a concrete ranked list: the code's
selection and the rule-by-rule spec selection coincide. -/
theorem findBestMatch_eq_spec_witness :
    findBestMatch "pizza"
        [mkCand "1" "pizza" none, mkCand "2" "other" (some 50)] =
      findBestMatchSpec "pizza"
        [mkCand "1" "pizza" none, mkCand "2" "other" (some 50)] :=
  findBestMatch_eq_spec "pizza"
    [mkCand "1" "pizza" none, mkCand "2" "other" (some 50)]

/-! ## C9 -/

/-- Forget a candidate's calorie field (used to state that the selector
changes nothing except possibly calorie fields). -/
def eraseCalories (c : FoodCandidate) : FoodCandidate :=
  { c with calories := none }

/-- A candidate with no calorie field but an `energy` nutrient entry of
value 100. -/
def candEnergy : FoodCandidate :=
  { id := "e", description := "x", calories := none,
    nutrients := some [("energy", ⟨some 100, none, none⟩)],
    ingredients := [], score := none }

/-- Counterexample to C9 as stated: `_findBestMatch` is not free of
side effects on the candidate records — on a list whose only candidate
derives its calories from an `energy` nutrient, the candidate array
after the call differs from the one passed in (the selected record now
carries an attached calorie value). -/
theorem findBestMatchM_mutation_cex :
    (findBestMatchM "y" [candEnergy]).2 ≠ [candEnergy] ∧
    (findBestMatchM "y" [candEnergy]).2 = [attachEnergyCalories candEnergy] :=
  ⟨by decide, rfl⟩

/-- Replacing the first element matching `p` by its calorie-attached
version changes no field other than `calories`. -/
theorem updateFirst_map_eraseCalories (p : FoodCandidate → Bool)
    (rs : List FoodCandidate) :
    (updateFirst p attachEnergyCalories rs).map eraseCalories =
      rs.map eraseCalories := by
  induction rs with
  | nil => rfl
  | cons x xs ih =>
    by_cases h : p x <;>
      simp [updateFirst, h, ih, eraseCalories, attachEnergyCalories]

/-- C9 amended: the selection of `_findBestMatch` is a deterministic
function of the dish name and the candidate list (the state view returns
the same candidate as the value view), but the call may mutate the
list: afterwards the list agrees with the input except that calorie
fields may have been attached. -/
theorem findBestMatchM_deterministic_frame (d : String)
    (rs : List FoodCandidate) :
    (findBestMatchM d rs).1 = findBestMatch d rs ∧
    ((findBestMatchM d rs).2).map eraseCalories = rs.map eraseCalories := by
  cases rs with
  | nil => exact ⟨rfl, rfl⟩
  | cons f t =>
    have herase : ∀ c, eraseCalories (attachEnergyCalories c) = eraseCalories c :=
      fun _ => rfl
    constructor
    · simp only [findBestMatchM, findBestMatch]
      cases h1 : List.find? (fun i => jsToLower i.description == jsToLower d)
          (f :: t) with
      | some em =>
        by_cases hc : jsTruthyNum em.calories
        · simp [hc]
        · simp only [hc, if_false]
          cases h2 : List.find? (fun i => calPositive i.calories) (f :: t) with
          | some w => simp
          | none =>
            cases h3 : List.find? energyValuePos (f :: t) with
            | some w => simp
            | none => by_cases h4 : hasEnergyEntry f <;> simp [h4]
      | none =>
        cases h2 : List.find? (fun i => calPositive i.calories) (f :: t) with
        | some w => simp
        | none =>
          cases h3 : List.find? energyValuePos (f :: t) with
          | some w => simp
          | none => by_cases h4 : hasEnergyEntry f <;> simp [h4]
    · simp only [findBestMatchM]
      cases h1 : List.find? (fun i => jsToLower i.description == jsToLower d)
          (f :: t) with
      | some em =>
        by_cases hc : jsTruthyNum em.calories
        · simp [hc]
        · simp only [hc, if_false]
          cases h2 : List.find? (fun i => calPositive i.calories) (f :: t) with
          | some w => simp
          | none =>
            cases h3 : List.find? energyValuePos (f :: t) with
            | some w => simp [updateFirst_map_eraseCalories]
            | none =>
              by_cases h4 : hasEnergyEntry f <;>
                simp [h4, List.map_cons, herase]
      | none =>
        cases h2 : List.find? (fun i => calPositive i.calories) (f :: t) with
        | some w => simp
        | none =>
          cases h3 : List.find? energyValuePos (f :: t) with
          | some w => simp [updateFirst_map_eraseCalories]
          | none =>
            by_cases h4 : hasEnergyEntry f <;>
              simp [h4, List.map_cons, herase]

/-- Witness for the amended C9 on a concrete list with an
energy-nutrient candidate. -/
theorem findBestMatchM_deterministic_frame_witness :
    (findBestMatchM "y" [candEnergy]).1 = findBestMatch "y" [candEnergy] ∧
    ((findBestMatchM "y" [candEnergy]).2).map eraseCalories =
      [candEnergy].map eraseCalories :=
  findBestMatchM_deterministic_frame "y" [candEnergy]

/-! ## C3 -/

/-- Each iteration of the batch loop appends exactly one record, either
to `results` or to `errors`. -/
theorem batchLoop_length (ts : String) (provider : String → List FoodCandidate)
    (items : List BatchItem) :
    ∀ cache, (batchLoop ts provider items cache).results.length +
      (batchLoop ts provider items cache).errors.length = items.length := by
  induction items with
  | nil => intro cache; rfl
  | cons dish rest ih =>
    intro cache
    by_cases hg : jsTruthyStr dish.dish_name && jsTruthyNum dish.servings
    · have h := ih ((getCalories ts (provider (dish.dish_name.getD "")) cache
        (dish.dish_name.getD "") (dish.servings.getD 0)).cache)
      cases ho : (getCalories ts (provider (dish.dish_name.getD "")) cache
          (dish.dish_name.getD "") (dish.servings.getD 0)).outcome with
      | ok r =>
        simp [batchLoop, hg, ho]
        omega
      | error e =>
        simp [batchLoop, hg, ho]
        omega
    · have h := ih cache
      simp [batchLoop, hg]
      omega

/-- C3: the batch endpoint rejects an empty batch and a batch of more
than 10 items with the corresponding validation error; for every batch
of `1 ≤ n ≤ 10` items it succeeds, per-item failures becoming error
records, and `results.length + errors.length = n` always holds. -/
theorem getBatchCalories_partial_failure (ts : String)
    (provider : String → List FoodCandidate)
    (cache : List (String × CalorieResult)) (dishes : List BatchItem) :
    (dishes.length = 0 → getBatchCalories ts provider cache dishes =
      Except.error "Dishes array is required and must not be empty") ∧
    (10 < dishes.length → getBatchCalories ts provider cache dishes =
      Except.error "Maximum 10 dishes allowed per batch request") ∧
    (1 ≤ dishes.length → dishes.length ≤ 10 →
      ∃ out, getBatchCalories ts provider cache dishes = Except.ok out ∧
        out.results.length + out.errors.length = dishes.length) := by
  refine ⟨?_, ?_, ?_⟩
  · intro h
    simp [getBatchCalories, h]
  · intro h
    have h0 : ¬ (dishes.length = 0) := by omega
    simp [getBatchCalories, h0, h]
  · intro h1 h10
    have h0 : ¬ (dishes.length = 0) := by omega
    have hn : ¬ (10 < dishes.length) := by omega
    refine ⟨batchLoop ts provider dishes cache, ?_, batchLoop_length ts provider dishes cache⟩
    simp [getBatchCalories, h0, hn]

/-- A two-item batch: one well-formed pizza request and one item with a
missing dish name (captured as a per-item error record). -/
def batchTwo : List BatchItem :=
  [{ dish_name := some "pizza", servings := some 1 },
   { dish_name := none, servings := some 2 }]

/-- Witness for C3: a batch of two items succeeds and its outcome
records sum to two. -/
theorem getBatchCalories_partial_failure_witness :
    ∃ out, getBatchCalories "t" (fun _ => [candPizza]) [] batchTwo =
        Except.ok out ∧
      out.results.length + out.errors.length = batchTwo.length :=
  (getBatchCalories_partial_failure "t" (fun _ => [candPizza]) [] batchTwo).2.2
    (by decide) (by decide)

/-! ## C5 -/

/-- On a non-empty list the selector always selects some candidate. -/
theorem findBestMatch_isSome (d : String) (f : FoodCandidate)
    (t : List FoodCandidate) : (findBestMatch d (f :: t)).isSome = true := by
  simp only [findBestMatch]
  cases h1 : List.find? (fun i => jsToLower i.description == jsToLower d)
      (f :: t) with
  | some em =>
    by_cases hc : jsTruthyNum em.calories
    · simp [hc]
    · simp only [hc, Bool.false_eq_true, if_false]
      cases h2 : List.find? (fun i => calPositive i.calories) (f :: t) with
      | some w => simp
      | none =>
        cases h3 : List.find? energyValuePos (f :: t) with
        | some w => simp
        | none => by_cases h4 : hasEnergyEntry f <;> simp [h4]
  | none =>
    cases h2 : List.find? (fun i => calPositive i.calories) (f :: t) with
    | some w => simp
    | none =>
      cases h3 : List.find? energyValuePos (f :: t) with
      | some w => simp
      | none => by_cases h4 : hasEnergyEntry f <;> simp [h4]

/-- A validated input always has positive servings. -/
theorem validateInput_ok_pos (d : String) (s : ℚ)
    (h : validateInput d s = Except.ok ()) : 0 < s := by
  by_cases h2 : s ≤ 0
  · by_cases h1 : d = "" ∨ jsLength (jsTrim d) = 0
    · simp [validateInput, h1] at h
    · simp [validateInput, h1, h2] at h
  · exact not_le.mp h2

/-- C5: on a cache miss with valid input, `getCalories` fails with the
not-found error when the provider search is empty, fails with the
not-found error when the selected best match has no truthy calorie
value, and in every other case (the selector always selects on a
non-empty list) produces a `CalorieResult`. -/
theorem getCalories_notfound_or_result (ts : String)
    (resp : List FoodCandidate) (cache : List (String × CalorieResult))
    (d : String) (s : ℚ)
    (hval : validateInput d s = Except.ok ())
    (hmiss : cache.lookup (generateCacheKey d s) = none) :
    (resp = [] → (getCalories ts resp cache d s).outcome =
      Except.error "Sorry, we could not find that dish in our database") ∧
    (resp ≠ [] → ∃ bm, findBestMatch d resp = some bm) ∧
    (∀ bm, findBestMatch d resp = some bm →
      (jsTruthyNum bm.calories = false →
        (getCalories ts resp cache d s).outcome =
          Except.error "Dish not found or calorie information unavailable") ∧
      (jsTruthyNum bm.calories = true →
        ∃ r, (getCalories ts resp cache d s).outcome = Except.ok r)) := by
  have hmap1 : handleError "Dish not found" =
      "Sorry, we could not find that dish in our database" := by decide
  have hmap2 : handleError "Dish not found or calorie information unavailable" =
      "Dish not found or calorie information unavailable" := by decide
  refine ⟨?_, ?_, ?_⟩
  · intro h
    subst h
    simp [getCalories, hval, hmiss, hmap1]
  · intro hne
    cases resp with
    | nil => exact absurd rfl hne
    | cons f t => exact Option.isSome_iff_exists.mp (findBestMatch_isSome d f t)
  · intro bm hbm
    have hne : ¬ (resp.length = 0) := by
      intro h0
      rw [List.length_eq_zero] at h0
      subst h0
      simp [findBestMatch] at hbm
    constructor
    · intro hf
      simp [getCalories, hval, hmiss, hne, hbm, hf, hmap2]
    · intro ht
      have hpos : ¬ (s ≤ 0) := not_le.mpr (validateInput_ok_pos d s hval)
      refine ⟨{ dish_name := bm.description
                servings := s
                calories_per_serving := jsNumOr bm.calories 0
                total_calories := mathRound (jsNumOr bm.calories 0 * s)
                source := providerName
                ingredients := bm.ingredients
                nutrients := bm.nutrients.getD []
                searchResults := some resp.length
                matchScore := bm.score
                timestamp := some ts }, ?_⟩
      simp [getCalories, hval, hmiss, hne, hbm, ht, calculateCalories, hpos]

/-- Witness for C5: with a single pizza candidate, a valid cache-miss
resolution produces a result. -/
theorem getCalories_notfound_or_result_witness :
    ∃ r, (getCalories "t" [candPizza] [] "pizza" 1).outcome = Except.ok r :=
  ((getCalories_notfound_or_result "t" [candPizza] [] "pizza" 1 (by decide)
      rfl).2.2 candPizza (by decide)).2 (by decide)

/-! ## C6 -/

/-- The concrete `CalorieResult` produced by resolving one serving of
the `candPizza` candidate at timestamp `t1`. -/
def rPizza : CalorieResult :=
  { dish_name := "Pizza"
    servings := 1
    calories_per_serving := 100
    total_calories := mathRound (100 * 1)
    source := providerName
    ingredients := []
    nutrients := []
    searchResults := some 1
    matchScore := some 95
    timestamp := some "t1" }

/-- C6: the cache key depends on the dish name only through its
lower-cased, trimmed form (together with the servings value), and after
any successful `getCalories` call a second call with the same arguments
is a pure cache hit: it returns the identical cached result, leaves the
cache unchanged, performs no provider search and no cache write — so
the two calls together issue at most one upstream search. -/
theorem cacheKey_normalized_and_hit_idempotent :
    (∀ d d' (s : ℚ), jsTrim (jsToLower d) = jsTrim (jsToLower d') →
      generateCacheKey d s = generateCacheKey d' s) ∧
    (∀ ts ts' (resp resp' : List FoodCandidate)
      (cache : List (String × CalorieResult)) (d : String) (s : ℚ)
      (r : CalorieResult),
      (getCalories ts resp cache d s).outcome = Except.ok r →
      getCalories ts' resp' (getCalories ts resp cache d s).cache d s =
        { outcome := Except.ok r
          cache := (getCalories ts resp cache d s).cache
          providerCalls := 0
          cacheWrites := 0 } ∧
      (getCalories ts resp cache d s).providerCalls ≤ 1) := by
  constructor
  · intro d d' s h
    simp [generateCacheKey, h]
  · intro ts ts' resp resp' cache d s r hok
    cases hv : validateInput d s with
    | error e => simp [getCalories, hv] at hok
    | ok u =>
      cases u
      cases hl : cache.lookup (generateCacheKey d s) with
      | some rc =>
        have h1 : getCalories ts resp cache d s =
            { outcome := Except.ok rc, cache := cache,
              providerCalls := 0, cacheWrites := 0 } := by
          simp [getCalories, hv, hl]
        rw [h1] at hok
        obtain rfl : rc = r := by
          simpa using hok
        rw [h1]
        constructor
        · simp [getCalories, hv, hl]
        · simp
      | none =>
        by_cases hlen : resp.length = 0
        · simp [getCalories, hv, hl, hlen] at hok
        · cases hbm : findBestMatch d resp with
          | none => simp [getCalories, hv, hl, hlen, hbm] at hok
          | some bm =>
            by_cases ht : jsTruthyNum bm.calories
            · cases hcc : calculateCalories (some bm) s with
              | error e => simp [getCalories, hv, hl, hlen, hbm, ht, hcc] at hok
              | ok r0 =>
                have h1 : getCalories ts resp cache d s =
                    { outcome := Except.ok { r0 with
                        searchResults := some resp.length
                        matchScore := bm.score
                        timestamp := some ts }
                      cache := (generateCacheKey d s, { r0 with
                        searchResults := some resp.length
                        matchScore := bm.score
                        timestamp := some ts }) :: cache
                      providerCalls := 1
                      cacheWrites := 1 } := by
                  simp [getCalories, hv, hl, hlen, hbm, ht, hcc]
                rw [h1] at hok
                obtain rfl : { r0 with
                    searchResults := some resp.length
                    matchScore := bm.score
                    timestamp := some ts } = r := by
                  simpa using hok
                rw [h1]
                refine ⟨?_, by simp⟩
                simp [getCalories, hv, List.lookup]
            · simp [getCalories, hv, hl, hlen, hbm, ht] at hok

/-- Witness for C6: resolving `pizza` once populates the cache; the
second call is a hit that returns the identical result with zero
provider calls and zero writes. -/
theorem cacheKey_normalized_and_hit_idempotent_witness :
    getCalories "t2" [] (getCalories "t1" [candPizza] [] "pizza" 1).cache
        "pizza" 1 =
      { outcome := Except.ok rPizza
        cache := (getCalories "t1" [candPizza] [] "pizza" 1).cache
        providerCalls := 0
        cacheWrites := 0 } ∧
    (getCalories "t1" [candPizza] [] "pizza" 1).providerCalls ≤ 1 :=
  cacheKey_normalized_and_hit_idempotent.2 "t1" "t2" [candPizza] [] [] "pizza"
    1 rPizza (by rfl)

/-! ## C8 -/

/-- Counterexample to C8 as stated ("on success exactly one cache write
occurs"): when the key is already cached, `getCalories` succeeds as a
cache hit and performs ZERO cache writes. -/
theorem getCalories_hit_zero_writes_cex :
    (getCalories "t2" [] [(generateCacheKey "pizza" 1, rPizza)] "pizza" 1).outcome =
      Except.ok rPizza ∧
    (getCalories "t2" [] [(generateCacheKey "pizza" 1, rPizza)] "pizza" 1).cacheWrites
      = 0 ∧
    (getCalories "t2" [] [(generateCacheKey "pizza" 1, rPizza)] "pizza" 1).cache =
      [(generateCacheKey "pizza" 1, rPizza)] := by
  have hl : List.lookup (generateCacheKey "pizza" 1)
      [(generateCacheKey "pizza" 1, rPizza)] = some rPizza := by
    simp [List.lookup]
  refine ⟨?_, ?_, ?_⟩ <;> simp [getCalories, hl, show validateInput "pizza" 1 =
    Except.ok () from by decide]

/-- C8 amended: a `CalorieResult` is cached only after a fully
successful computation — on failure the cache is unchanged and no write
occurs; on a cache-miss success exactly one write occurs, installing the
returned result under the request's key; on a cache-hit success no
write occurs and the cache is unchanged. -/
theorem getCalories_cache_write_discipline (ts : String)
    (resp : List FoodCandidate) (cache : List (String × CalorieResult))
    (d : String) (s : ℚ) :
    (∀ e, (getCalories ts resp cache d s).outcome = Except.error e →
      (getCalories ts resp cache d s).cacheWrites = 0 ∧
      (getCalories ts resp cache d s).cache = cache) ∧
    (∀ r, (getCalories ts resp cache d s).outcome = Except.ok r →
      (cache.lookup (generateCacheKey d s) = none →
        (getCalories ts resp cache d s).cacheWrites = 1 ∧
        (getCalories ts resp cache d s).cache =
          (generateCacheKey d s, r) :: cache) ∧
      (∀ r', cache.lookup (generateCacheKey d s) = some r' →
        (getCalories ts resp cache d s).cacheWrites = 0 ∧
        (getCalories ts resp cache d s).cache = cache)) := by
  cases hv : validateInput d s with
  | error e =>
    refine ⟨fun e allegedly => by simp [getCalories, hv], fun r hok => ?_⟩
    simp [getCalories, hv] at hok
  | ok u =>
    cases u
    cases hl : cache.lookup (generateCacheKey d s) with
    | some rc =>
      refine ⟨fun e hbad => ?_, fun r hok => ⟨fun hnone => ?_, fun r' hsome => ?_⟩⟩
      · simp [getCalories, hv, hl] at hbad
      · simp at hnone
      · simp [getCalories, hv, hl]
    | none =>
      by_cases hlen : resp.length = 0
      · refine ⟨fun e hbad => by simp [getCalories, hv, hl, hlen], fun r hok => ?_⟩
        simp [getCalories, hv, hl, hlen] at hok
      · cases hbm : findBestMatch d resp with
        | none =>
          refine ⟨fun e hbad => by simp [getCalories, hv, hl, hlen, hbm],
            fun r hok => ?_⟩
          simp [getCalories, hv, hl, hlen, hbm] at hok
        | some bm =>
          by_cases ht : jsTruthyNum bm.calories
          · cases hcc : calculateCalories (some bm) s with
            | error e =>
              refine ⟨fun e hbad =>
                by simp [getCalories, hv, hl, hlen, hbm, ht, hcc],
                fun r hok => ?_⟩
              simp [getCalories, hv, hl, hlen, hbm, ht, hcc] at hok
            | ok r0 =>
              refine ⟨fun e hbad => ?_, fun r hok =>
                ⟨fun hnone => ?_, fun r' hsome => ?_⟩⟩
              · simp [getCalories, hv, hl, hlen, hbm, ht, hcc] at hbad
              · have hr : { r0 with
                    searchResults := some resp.length
                    matchScore := bm.score
                    timestamp := some ts } = r := by
                  have := hok
                  simp [getCalories, hv, hl, hlen, hbm, ht, hcc] at this
                  simpa using this
                subst hr
                simp [getCalories, hv, hl, hlen, hbm, ht, hcc]
              · simp at hsome
          · refine ⟨fun e hbad =>
              by simp [getCalories, hv, hl, hlen, hbm, ht],
              fun r hok => ?_⟩
            simp [getCalories, hv, hl, hlen, hbm, ht] at hok

/-- Witness for the amended C8: a failed resolution (invalid servings)
leaves the cache untouched with zero writes. -/
theorem getCalories_cache_write_discipline_witness :
    (getCalories "t" [] [] "pizza" 0).cacheWrites = 0 ∧
    (getCalories "t" [] [] "pizza" 0).cache = [] :=
  (getCalories_cache_write_discipline "t" [] [] "pizza" 0).1
    "Servings must be a positive number" (by decide)

/-! ## C7 -/

/-- A raw food record that carries an explicit `calories` field of 500
but an empty nutrient list. -/
def rawExplicit : RawFood :=
  { fdcId := "r1", description := "dish", calories := some 500,
    foodNutrients := .arr [], ingredients := [], score := none }

/-- A raw nutrient entry in the flat search-response format: name
`Energy` under `nutrientName`, value 100, but no `nutrientId` and no
nested `nutrient` object. -/
def flatEnergy : FoodNutrient :=
  { nutrientId := none, nutrient := none, nutrientName := some "Energy",
    value := some 100, amount := none, unitName := some "kcal" }

/-- A raw nutrient entry in the nested format: `nutrient.name` contains
`Energy`, with the numeric value under `amount`. -/
def nestedEnergy : FoodNutrient :=
  { nutrientId := none,
    nutrient := some { id := none, name := some "Energy (Atwater General Factors)",
                       unitName := some "kcal" },
    nutrientName := none, value := some 150, amount := none, unitName := none }

/-- Counterexample to C7 as stated: (a) the extraction never consults an
explicit `calories` field — a record carrying `calories = 500` with an
empty nutrient list transforms to a candidate with a `null` calorie
value; (b) an entry whose (flat) `nutrientName` is `Energy` with value
100 is NOT matched, because the name match only inspects the nested
`nutrient.name` field — extraction yields `null`, not 100. -/
theorem extractCalories_policy_cex :
    (transformSearchResults [rawExplicit]).map (fun c => c.calories) = [none] ∧
    rawExplicit.calories = some 500 ∧
    extractCalories (.arr [flatEnergy]) = none ∧
    flatEnergy.nutrientName = some "Energy" ∧
    lowerIncludes "Energy" "energy" = true ∧
    flatEnergy.value = some 100 := by
  refine ⟨by decide, rfl, by decide, rfl, by decide, rfl⟩

/-- C7 amended: for every provider food record the transform derives the
calorie value solely from the nutrient list (any explicit `calories`
field on the raw record is ignored); an array entry is energy-matched
exactly when its flat `nutrientId` is 208, or its nested `nutrient.id`
is 208, or its nested `nutrient.name` contains `"energy"`
case-insensitively (the flat `nutrientName` is not consulted); the first
matched entry's value (falling back to its `amount`, then to `0`) is
rounded to the nearest integer; with no matched entry the candidate
carries no resolved calorie value. -/
theorem extractCalories_characterized :
    (∀ (food : RawFood) (c : Option ℚ),
      (transformFood { food with calories := c }).calories =
        extractCalories food.foodNutrients) ∧
    (∀ l, extractCalories (.arr l) = none ↔ l.find? isEnergyNutrient = none) ∧
    (∀ l e, l.find? isEnergyNutrient = some e →
      extractCalories (.arr l) =
        some ((round (jsNumOr e.value (jsNumOr e.amount 0)) : ℤ) : ℚ)) ∧
    (∀ n, isEnergyNutrient n = true ↔
      (n.nutrientId = some 208 ∨
       (∃ ref, n.nutrient = some ref ∧ ref.id = some 208) ∨
       (∃ ref nm, n.nutrient = some ref ∧ ref.name = some nm ∧
         lowerIncludes nm "energy" = true))) := by
  refine ⟨?_, ?_, ?_, ?_⟩
  · intro food c
    rfl
  · intro l
    cases h : l.find? isEnergyNutrient with
    | some e => simp [extractCalories, h]
    | none => simp [extractCalories, h]
  · intro l e h
    simp [extractCalories, h, mathRound]
  · intro n
    constructor
    · intro h
      simp only [isEnergyNutrient, Bool.or_eq_true, beq_iff_eq] at h
      rcases h with h | h
      · exact Or.inl h
      · cases hn : n.nutrient with
        | none => rw [hn] at h; cases h
        | some ref =>
          rw [hn] at h
          simp only [Bool.or_eq_true, beq_iff_eq] at h
          rcases h with h | h
          · exact Or.inr (Or.inl ⟨ref, rfl, h⟩)
          · cases hm : ref.name with
            | none => rw [hm] at h; cases h
            | some nm =>
              rw [hm] at h
              exact Or.inr (Or.inr ⟨ref, nm, rfl, hm, h⟩)
    · intro h
      simp only [isEnergyNutrient, Bool.or_eq_true, beq_iff_eq]
      rcases h with h | ⟨ref, href, hid⟩ | ⟨ref, nm, href, hnm, hinc⟩
      · exact Or.inl h
      · refine Or.inr ?_
        simp [href, hid]
      · refine Or.inr ?_
        simp [href, hnm, hinc]

/-- Witness for the amended C7: the nested-format energy entry (value
under `amount`) is matched and its amount 150 is rounded. -/
theorem extractCalories_characterized_witness :
    extractCalories (.arr [nestedEnergy]) =
      some ((round (jsNumOr nestedEnergy.value
        (jsNumOr nestedEnergy.amount 0)) : ℤ) : ℚ) :=
  extractCalories_characterized.2.2.1 [nestedEnergy] nestedEnergy (by decide)

end CalorieTracker
